import Mathlib

/-!
Verification of the FloraJS steering-behavior engine (`src/agent.js`).

The development shallowly embeds `Agent.prototype` from `src/agent.js` over
exact real arithmetic.  The `Burner.Vector` value type and the inherited
`Mover` operations (`applyForce`, `_seek`, `drag`, `attract`) are not part of
the repository sources; they are modelled from the design spec (sections 3,
4.1 and 4.2), each such definition carries a doc comment saying so.
-/

namespace Flora

open scoped Classical

/-- Modelled from the spec: `Burner.Vector` is not under `src/`.  Spec section 3:
"Vector2D: {x: float, y: float}", with arithmetic, normalization, magnitude,
clamping and distance operations; normalizing the zero vector yields the zero
vector. -/
@[ext]
structure Vec where
  x : ℝ
  y : ℝ

/-- The zero vector, i.e. `new Burner.Vector()`. -/
def Vec.zero : Vec := ⟨0, 0⟩

/-- Componentwise vector addition (`Vector.add`). -/
def Vec.add (u v : Vec) : Vec := ⟨u.x + v.x, u.y + v.y⟩

/-- Componentwise vector subtraction (`Vector.sub` / `Vector.VectorSub`). -/
def Vec.sub (u v : Vec) : Vec := ⟨u.x - v.x, u.y - v.y⟩

/-- Scalar multiplication (`Vector.mult`). -/
def Vec.mult (v : Vec) (n : ℝ) : Vec := ⟨v.x * n, v.y * n⟩

/-- Scalar division (`Vector.div`). -/
noncomputable def Vec.div (v : Vec) (n : ℝ) : Vec := ⟨v.x / n, v.y / n⟩

/-- Euclidean magnitude (`Vector.mag`). -/
noncomputable def Vec.mag (v : Vec) : ℝ := Real.sqrt (v.x ^ 2 + v.y ^ 2)

/-- Normalization (`Vector.normalize`); the spec fixes the zero vector as the
result on zero-magnitude input. -/
noncomputable def Vec.normalize (v : Vec) : Vec :=
  if v.mag = 0 then Vec.zero else ⟨v.x / v.mag, v.y / v.mag⟩

/-- Magnitude clamping (`Vector.limit`): rescale to magnitude `high` when the
current magnitude exceeds it. -/
noncomputable def Vec.limit (v : Vec) (high : ℝ) : Vec :=
  if v.mag > high then (v.normalize).mult high else v

/-- Distance between two points (`Vector.distance`). -/
noncomputable def Vec.distance (u v : Vec) : ℝ := (u.sub v).mag


/-- A flocking peer as read by `separate` / `align` / `cohesion`
(`src/agent.js` lines 239-253, 282-292, 322-332): only `className`, `id`,
`location` and `velocity` of the elements are consulted. -/
structure Element where
  className : String
  id : ℕ
  location : Vec
  velocity : Vec

/-- A sensor attached to an Agent (`src/agent.js` lines 108-132).  The
`activated` flag and the activation force are resolved by a collaborator
outside this core (spec section 6: "a Sensor exposes `activated: bool` and
`getActivationForce(owner) -> Vector2D`, computed by a collaborator outside
this core"), so they appear here as data. -/
structure Sensor where
  offsetDistance : ℝ
  offsetAngle : ℝ
  activated : Bool
  activationForce : Vec

/-- A liquid region from the `Liquid` registry cache (`src/agent.js`
lines 84-90).  `c` is its drag coefficient. -/
structure Liquid where
  id : ℕ
  c : ℝ
  location : Vec
  width : ℝ
  height : ℝ

/-- An attractor or repeller from the registry caches (`src/agent.js`
lines 92-106); both kinds are fed to `Mover.attract`. -/
structure PointSource where
  id : ℕ
  G : ℝ
  mass : ℝ
  location : Vec
  minDist : ℝ
  maxDist : ℝ

/-- A flow field (`src/agent.js` lines 161-182): a cell size `resolution`
and a partial 2D grid of direction vectors, indexed column-first exactly as
`flowField.field[col][row]` is; a column may be absent, and a present column
may lack the sampled row. -/
structure FlowField where
  resolution : ℝ
  field : ℤ → Option (ℤ → Option Vec)

/-- An agent's own state: the `Mover`-inherited kinematic fields plus the
Agent fields set in `Agent.prototype.init` that `applyForces` and the
steering methods read. -/
structure Agent where
  className : String
  id : ℕ
  location : Vec
  velocity : Vec
  acceleration : Vec
  mass : ℝ
  maxSpeed : ℝ
  maxSteeringForce : ℝ
  motorSpeed : ℝ
  width : ℝ
  angle : ℝ
  desiredSeparation : ℝ
  separateStrength : ℝ
  alignStrength : ℝ
  cohesionStrength : ℝ
  flocking : Bool
  followMouse : Bool
  seekTarget : Option Vec
  flowField : Option FlowField
  sensors : List Sensor

/-- The per-frame environment `applyForces` reads: the registry caches
`Burner.System._caches.Liquid / Attractor / Repeller` (the `Heat` cache is
also fetched on line 82 of `src/agent.js` but never used), the pointer
state, and the full `Agent` category used for flocking
(`Burner.System.getAllItemsByName('Agent')`, line 185). -/
structure Env where
  liquids : List Liquid
  attractors : List PointSource
  repellers : List PointSource
  mouse : Vec
  touch : Bool
  agents : List Element

/-- Modelled from the spec: `Mover.applyForce` is not under `src/`.
Spec section 4.1: "applyForce(f: Vector2D): acceleration += f / mass". -/
noncomputable def Agent.applyForce (a : Agent) (f : Vec) : Agent :=
  { a with acceleration := a.acceleration.add (f.div a.mass) }

/-- Modelled from the spec: `Mover._seek` is not under `src/`.  Spec
section 4.2: "desired velocity = direction from self to target's location,
scaled to maxSpeed; steering force = desired velocity − current velocity,
magnitude-clamped to maxSteeringForce". -/
noncomputable def Agent.seek (a : Agent) (targetLoc : Vec) : Vec :=
  ((((targetLoc.sub a.location).normalize).mult a.maxSpeed).sub a.velocity).limit
    a.maxSteeringForce

/-- Modelled from the spec: `Mover.drag` is not under `src/`.  Spec
section 4.2 item 1: "a drag force opposing velocity, scaled by the liquid's
drag coefficient" and the square of the speed. -/
noncomputable def Agent.drag (a : Agent) (liq : Liquid) : Vec :=
  (a.velocity.normalize).mult (-liq.c * a.velocity.mag * a.velocity.mag)

/-- Modelled from the spec: `Utils.isInside` is not under `src/`.  Spec
section 4.2 item 1: fires "where the Agent's location lies inside the
liquid's bounds". -/
def isInside (a : Agent) (liq : Liquid) : Prop :=
  |a.location.x - liq.location.x| < liq.width / 2 ∧
    |a.location.y - liq.location.y| < liq.height / 2

/-- Modelled from the spec: `Mover.attract` is not under `src/`.  Spec
section 4.2 item 2: "a force along the line connecting Agent and source,
magnitude following an inverse-relationship to squared distance, clamped to
configured min/max bounds to avoid singularities at zero distance". -/
noncomputable def Agent.attract (a : Agent) (s : PointSource) : Vec :=
  let force := s.location.sub a.location
  let distance := max s.minDist (min s.maxDist force.mag)
  (force.normalize).mult (s.G * s.mass * a.mass / (distance * distance))

/-- `Agent.prototype.follow` (`src/agent.js` lines 198-208): the target's
location is scaled by `maxSpeed`, the current velocity subtracted, and the
result clamped to `maxSteeringForce`. -/
noncomputable def Agent.follow (a : Agent) (targetLoc : Vec) : Vec :=
  ((targetLoc.mult a.maxSpeed).sub a.velocity).limit a.maxSteeringForce

/-- `Agent.prototype.separate` (`src/agent.js` lines 230-263): accumulate,
over same-kind other elements closer than `desiredSeparation` but at nonzero
distance, the normalized away-pointing difference weighted by 1/distance;
average, renormalize to `maxSpeed`, subtract velocity, clamp.  The
accumulator pair is (running sum, neighbor count). -/
noncomputable def Agent.separate (a : Agent) (elements : List Element) : Vec :=
  let p := elements.foldl (fun (acc : Vec × ℕ) (element : Element) =>
    if a.className = element.className ∧ a.id ≠ element.id then
      let d := a.location.distance element.location
      if 0 < d ∧ d < a.desiredSeparation then
        (acc.1.add (((a.location.sub element.location).normalize).div d), acc.2 + 1)
      else acc
    else acc) (Vec.zero, 0)
  if 0 < p.2 then
    ((((p.1.div (p.2 : ℝ)).normalize).mult a.maxSpeed).sub a.velocity).limit
      a.maxSteeringForce
  else Vec.zero

/-- `Agent.prototype.align` (`src/agent.js` lines 272-303): average the
velocities of same-kind other elements within `width * 2`, steer toward the
average with the desired-minus-current-clamped pattern. -/
noncomputable def Agent.align (a : Agent) (elements : List Element) : Vec :=
  let neighbordist := a.width * 2
  let p := elements.foldl (fun (acc : Vec × ℕ) (element : Element) =>
    let d := a.location.distance element.location
    if 0 < d ∧ d < neighbordist then
      if a.className = element.className ∧ a.id ≠ element.id then
        (acc.1.add element.velocity, acc.2 + 1)
      else acc
    else acc) (Vec.zero, 0)
  if 0 < p.2 then
    ((((p.1.div (p.2 : ℝ)).normalize).mult a.maxSpeed).sub a.velocity).limit
      a.maxSteeringForce
  else Vec.zero

/-- `Agent.prototype.cohesion` (`src/agent.js` lines 312-344): average the
locations of same-kind other elements within the fixed radius 10, steer
toward the centroid with the desired-minus-current-clamped pattern. -/
noncomputable def Agent.cohesion (a : Agent) (elements : List Element) : Vec :=
  let neighbordist : ℝ := 10
  let p := elements.foldl (fun (acc : Vec × ℕ) (element : Element) =>
    let d := a.location.distance element.location
    if 0 < d ∧ d < neighbordist then
      if a.className = element.className ∧ a.id ≠ element.id then
        (acc.1.add element.location, acc.2 + 1)
      else acc
    else acc) (Vec.zero, 0)
  if 0 < p.2 then
    (((((p.1.div (p.2 : ℝ)).sub a.location).normalize).mult a.maxSpeed).sub
      a.velocity).limit a.maxSteeringForce
  else Vec.zero

/-- `Agent.prototype.flock` (`src/agent.js` lines 215-221): three
independent `applyForce` calls, in the order separate, align, cohesion, each
scaled by its strength weight. -/
noncomputable def Agent.flock (a : Agent) (elements : List Element) : Agent :=
  let a1 := a.applyForce ((a.separate elements).mult a.separateStrength)
  let a2 := a1.applyForce ((a1.align elements).mult a1.alignStrength)
  a2.applyForce ((a2.cohesion elements).mult a2.cohesionStrength)

/-- The motor-maintenance direction vector of `applyForces`
(`src/agent.js` lines 139-145): the normalized current velocity scaled by
`-motorSpeed` when speed exceeds `motorSpeed`, else by `+motorSpeed`. -/
noncomputable def Agent.motorDir (a : Agent) : Vec :=
  let dir := a.velocity.normalize
  if a.velocity.mag > a.motorSpeed then dir.mult (-a.motorSpeed)
  else dir.mult a.motorSpeed

/-- The world position a sensor is moved to during the sensor loop
(`src/agent.js` lines 113-120): the owner's location plus the polar offset
`(offsetDistance, angle + offsetAngle)` converted from degrees.  The update
is presentational (only `activated` and the activation force feed back into
the force pipeline), so it is kept as a derived value here. -/
noncomputable def sensorLocation (a : Agent) (s : Sensor) : Vec :=
  let theta := (a.angle + s.offsetAngle) * (Real.pi / 180)
  a.location.add ⟨s.offsetDistance * Real.cos theta, s.offsetDistance * Real.sin theta⟩

/-- Liquid block of `applyForces` (`src/agent.js` lines 84-90): drag from
every liquid that is not the agent itself and contains it. -/
noncomputable def Agent.liquidPhase (env : Env) (a : Agent) : Agent :=
  env.liquids.foldl (fun b liq =>
    if b.id ≠ liq.id ∧ isInside b liq then b.applyForce (b.drag liq) else b) a

/-- Attractor block of `applyForces` (`src/agent.js` lines 92-98). -/
noncomputable def Agent.attractorPhase (env : Env) (a : Agent) : Agent :=
  env.attractors.foldl (fun b s =>
    if b.id ≠ s.id then b.applyForce (b.attract s) else b) a

/-- Repeller block of `applyForces` (`src/agent.js` lines 100-106); the
code routes repellers through `this.attract` as well. -/
noncomputable def Agent.repellerPhase (env : Env) (a : Agent) : Agent :=
  env.repellers.foldl (fun b s =>
    if b.id ≠ s.id then b.applyForce (b.attract s) else b) a

/-- Sensor block of `applyForces` (`src/agent.js` lines 108-132): every
activated sensor contributes its activation force, in declared order.  The
sensor-location writes (lines 113-120, see `sensorLocation`) and the
`borderStyle` write (line 123) touch no state this pipeline reads. -/
noncomputable def Agent.sensorPhase (a : Agent) : Agent :=
  a.sensors.foldl (fun b s =>
    if s.activated = true then b.applyForce s.activationForce else b) a

/-- Motor block of `applyForces` (`src/agent.js` lines 138-147): if no
sensor was activated in the sensor loop and `motorSpeed` is nonzero, apply
the motor-maintenance force `motorDir`. -/
noncomputable def Agent.motorPhase (a : Agent) : Agent :=
  if a.sensors.any (fun s => s.activated) = false ∧ a.motorSpeed ≠ 0 then
    a.applyForce a.motorDir
  else a

/-- Mouse block of `applyForces` (`src/agent.js` lines 149-155): seek the
pointer when `followMouse` is set and the context is not touch-only. -/
noncomputable def Agent.mousePhase (env : Env) (a : Agent) : Agent :=
  if a.followMouse = true ∧ env.touch = false then a.applyForce (a.seek env.mouse)
  else a

/-- Seek block of `applyForces` (`src/agent.js` lines 157-159). -/
noncomputable def Agent.seekPhase (a : Agent) : Agent :=
  match a.seekTarget with
  | some t => a.applyForce (a.seek t)
  | none => a

/-- Flow-field block of `applyForces` (`src/agent.js` lines 161-182): the
occupying cell is `(col, row) = (floor(x/resolution), floor(y/resolution))`;
if the column is populated, follow the sampled vector, falling back to the
agent's own location when the cell has no sample; if the column is absent,
apply nothing. -/
noncomputable def Agent.flowPhase (a : Agent) : Agent :=
  match a.flowField with
  | none => a
  | some ff =>
    let col := ⌊a.location.x / ff.resolution⌋
    let row := ⌊a.location.y / ff.resolution⌋
    match ff.field col with
    | none => a
    | some colFun =>
      let target := match colFun row with
        | some loc => loc
        | none => a.location
      a.applyForce (a.follow target)

/-- Flocking block of `applyForces` (`src/agent.js` lines 184-186). -/
noncomputable def Agent.flockPhase (env : Env) (a : Agent) : Agent :=
  if a.flocking = true then a.flock env.agents else a

/-- `Agent.prototype.applyForces` (`src/agent.js` lines 76-189): the nine
behavior blocks in source order.  The JS function returns
`this.acceleration`; here the whole updated agent is returned and the
returned accumulator is its `acceleration` field. -/
noncomputable def Agent.applyForces (a : Agent) (env : Env) : Agent :=
  ((((((((a.liquidPhase env).attractorPhase env).repellerPhase
    env).sensorPhase).motorPhase).mousePhase env).seekPhase).flowPhase).flockPhase env

/-- Filter-and-map in one pass: the forces `g x` of the `x` in `l`
satisfying `cond`, in list order.  Used to state which contributions each
`applyForces` block applies. -/
noncomputable def condList {α : Type} (cond : α → Prop) (g : α → Vec) : List α → List Vec
  | [] => []
  | x :: rest => if cond x then g x :: condList cond g rest else condList cond g rest

/-- Sum of a list of vectors. -/
noncomputable def sumVecs : List Vec → Vec
  | [] => Vec.zero
  | v :: rest => v.add (sumVecs rest)

/-- The flow-field contribution of `applyForces` as a list: empty when no
flow field is attached or the column is unpopulated, otherwise the single
`follow` force (on the sampled vector, or on the agent's own location when
the cell has no sample). -/
noncomputable def Agent.flowContrib (a : Agent) : List Vec :=
  match a.flowField with
  | none => []
  | some ff =>
    match ff.field ⌊a.location.x / ff.resolution⌋ with
    | none => []
    | some colFun =>
      match colFun ⌊a.location.y / ff.resolution⌋ with
      | some loc => [a.follow loc]
      | none => [a.follow a.location]

/-- The ordered list of force contributions `applyForces` passes to
`applyForce` for a given agent and environment: one block per behavior, in
source order, each block empty exactly when its activating condition is
false or its list is empty. -/
noncomputable def Agent.forceContributions (a : Agent) (env : Env) : List Vec :=
  condList (fun liq => a.id ≠ liq.id ∧ isInside a liq) a.drag env.liquids
    ++ condList (fun s => a.id ≠ s.id) a.attract env.attractors
    ++ condList (fun s => a.id ≠ s.id) a.attract env.repellers
    ++ condList (fun s => s.activated = true) (fun s => s.activationForce) a.sensors
    ++ (if a.sensors.any (fun s => s.activated) = false ∧ a.motorSpeed ≠ 0 then
          [a.motorDir] else [])
    ++ (if a.followMouse = true ∧ env.touch = false then [a.seek env.mouse] else [])
    ++ (match a.seekTarget with | some t => [a.seek t] | none => [])
    ++ a.flowContrib
    ++ (if a.flocking = true then
          [(a.separate env.agents).mult a.separateStrength,
           (a.align env.agents).mult a.alignStrength,
           (a.cohesion env.agents).mult a.cohesionStrength]
        else [])

/-- Result type for the `type`-dispatched getters `getLocation` and
`getVelocity` (`src/agent.js` lines 353-380): a vector clone, a scalar
component, or `undefined` for an unrecognized `type`. -/
inductive GetResult where
  | vec (v : Vec)
  | num (r : ℝ)
  | undefinedValue

/-- Truthiness of the optional `type` string argument: absent or empty means
falsy, as in the JS `if (!type)` test. -/
def strTruthy : Option String → Bool
  | none => false
  | some s => !(s == "")

/-- `Agent.prototype.getLocation` (`src/agent.js` lines 353-362). -/
def Agent.getLocation (a : Agent) (type : Option String) : GetResult :=
  if strTruthy type = false then .vec ⟨a.location.x, a.location.y⟩
  else if type = some "x" then .num a.location.x
  else if type = some "y" then .num a.location.y
  else .undefinedValue

/-- `Agent.prototype.getVelocity` (`src/agent.js` lines 371-380).  Note the
no-argument branch on line 374 constructs the clone from `this.location`,
not `this.velocity`. -/
def Agent.getVelocity (a : Agent) (type : Option String) : GetResult :=
  if strTruthy type = false then .vec ⟨a.location.x, a.location.y⟩
  else if type = some "x" then .num a.velocity.x
  else if type = some "y" then .num a.velocity.y
  else .undefinedValue

/-- The option bag consumed by `Agent.prototype.init` (`src/agent.js`
lines 40-60).  `none` stands for an omitted (`undefined`) property. -/
structure Options where
  followMouse : Option Bool
  maxSteeringForce : Option ℝ
  seekTarget : Option Vec
  flocking : Option Bool
  desiredSeparation : Option ℝ
  separateStrength : Option ℝ
  alignStrength : Option ℝ
  cohesionStrength : Option ℝ
  flowField : Option FlowField
  sensors : Option (List Sensor)
  color : Option (List ℝ)
  borderWidth : Option ℝ
  borderStyle : Option String
  borderColor : Option String
  borderRadius : Option ℝ

/-- JS truthiness of an optional number: present and nonzero. -/
def truthyNum : Option ℝ → Prop
  | none => False
  | some v => v ≠ 0

/-- The Agent-specific fields assigned by `Agent.prototype.init`
(`src/agent.js` lines 45-60).  The Mover-inherited fields (location,
velocity, mass, width, ...) are set by the superclass `init` called on
line 43, which is not under `src/`; the scratch vectors of lines 64-68 are
reallocation-avoidance state the pure embedding does not need. -/
structure AgentConfig where
  followMouse : Bool
  maxSteeringForce : ℝ
  seekTarget : Option Vec
  flocking : Bool
  desiredSeparation : ℝ
  separateStrength : ℝ
  alignStrength : ℝ
  cohesionStrength : ℝ
  flowField : Option FlowField
  sensors : List Sensor
  color : List ℝ
  borderWidth : ℝ
  borderStyle : String
  borderColor : String
  borderRadius : ℝ

/-- `Agent.prototype.init` (`src/agent.js` lines 40-60).  `width` is the
agent's width as already set by the superclass init.  Line 60 parses as
`(options.borderRadius || this.sensors.length) ? 100 : 0`. -/
noncomputable def Agent.init (width : ℝ) (options : Options) : AgentConfig :=
  let sensors := options.sensors.getD []
  { followMouse := options.followMouse.getD false
    maxSteeringForce := match options.maxSteeringForce with
      | none => 10
      | some v => v
    seekTarget := options.seekTarget
    flocking := options.flocking.getD false
    desiredSeparation := match options.desiredSeparation with
      | none => width * 2
      | some v => v
    separateStrength := match options.separateStrength with
      | none => 0.3
      | some v => v
    alignStrength := match options.alignStrength with
      | none => 0.2
      | some v => v
    cohesionStrength := match options.cohesionStrength with
      | none => 0.1
      | some v => v
    flowField := options.flowField
    sensors := sensors
    color := options.color.getD [197, 177, 115]
    borderWidth := (options.borderWidth.getD 0)
    borderStyle := match options.borderStyle with
      | none => "none"
      | some s => if s = "" then "none" else s
    borderColor := match options.borderColor with
      | none => "transparent"
      | some s => if s = "" then "transparent" else s
    borderRadius := if truthyNum options.borderRadius ∨ sensors.length ≠ 0 then 100 else 0 }

/-- The agent itself viewed as a member of the `Agent` category list that
flocking iterates over. -/
def Agent.toElement (a : Agent) : Element :=
  ⟨a.className, a.id, a.location, a.velocity⟩

/-- Shorthand: `a` with its accumulator replaced. -/
noncomputable def Agent.withAcc (a : Agent) (c : Vec) : Agent :=
  { a with acceleration := c }

/-- A neutral concrete agent for the concrete-instance theorems; individual
fields are overridden per use. -/
noncomputable def baseAgent : Agent where
  className := "Agent"
  id := 0
  location := ⟨0, 0⟩
  velocity := ⟨0, 0⟩
  acceleration := ⟨0, 0⟩
  mass := 1
  maxSpeed := 1
  maxSteeringForce := 10
  motorSpeed := 0
  width := 10
  angle := 0
  desiredSeparation := 20
  separateStrength := 0.3
  alignStrength := 0.2
  cohesionStrength := 0.1
  flocking := false
  followMouse := false
  seekTarget := none
  flowField := none
  sensors := []

/-- An environment with empty registry caches and no pointer activity. -/
noncomputable def baseEnv : Env where
  liquids := []
  attractors := []
  repellers := []
  mouse := ⟨0, 0⟩
  touch := false
  agents := []

/-- A flow field whose only populated column (column 1) holds no samples. -/
noncomputable def c1Field : FlowField where
  resolution := 1
  field := fun col => if col = 1 then some (fun _ => none) else none

/-- An agent sitting in the populated-but-unsampled cell of `c1Field`. -/
noncomputable def c1Agent : Agent :=
  { baseAgent with location := ⟨1, 0⟩, flowField := some c1Field }

/-- A flocking agent with a separation strength weight above 1. -/
noncomputable def c2Agent : Agent :=
  { baseAgent with
    maxSteeringForce := 1
    desiredSeparation := 4
    separateStrength := 2
    flocking := true }

/-- A same-kind neighbor one unit away from `c2Agent`. -/
noncomputable def c2Other : Element := ⟨"Agent", 1, ⟨1, 0⟩, ⟨0, 0⟩⟩

/-- An environment whose Agent category holds just `c2Other`. -/
noncomputable def c2Env : Env := { baseEnv with agents := [c2Other] }

/-- A neighbor of the same kind and a distinct id placed exactly at
`baseAgent`'s location. -/
noncomputable def c4Other : Element := ⟨"Agent", 1, ⟨0, 0⟩, ⟨0, 0⟩⟩

/-- An agent with a nonzero motor speed and no sensors. -/
noncomputable def c6Agent : Agent := { baseAgent with motorSpeed := 2 }

/-- An options object with every recognized option omitted. -/
noncomputable def emptyOptions : Options where
  followMouse := none
  maxSteeringForce := none
  seekTarget := none
  flocking := none
  desiredSeparation := none
  separateStrength := none
  alignStrength := none
  cohesionStrength := none
  flowField := none
  sensors := none
  color := none
  borderWidth := none
  borderStyle := none
  borderColor := none
  borderRadius := none

/-- An agent whose velocity differs from its location. -/
noncomputable def c9Agent : Agent := { baseAgent with velocity := ⟨2, 3⟩ }

-- Basic algebraic facts about the vector operations.

@[simp] lemma Vec.add_x (u v : Vec) : (u.add v).x = u.x + v.x := rfl

@[simp] lemma Vec.add_y (u v : Vec) : (u.add v).y = u.y + v.y := rfl

@[simp] lemma Vec.sub_x (u v : Vec) : (u.sub v).x = u.x - v.x := rfl

@[simp] lemma Vec.sub_y (u v : Vec) : (u.sub v).y = u.y - v.y := rfl

@[simp] lemma Vec.mult_x (v : Vec) (n : ℝ) : (v.mult n).x = v.x * n := rfl

@[simp] lemma Vec.mult_y (v : Vec) (n : ℝ) : (v.mult n).y = v.y * n := rfl

@[simp] lemma Vec.div_x (v : Vec) (n : ℝ) : (v.div n).x = v.x / n := rfl

@[simp] lemma Vec.div_y (v : Vec) (n : ℝ) : (v.div n).y = v.y / n := rfl

@[simp] lemma Vec.zero_x : (Vec.zero).x = 0 := rfl

@[simp] lemma Vec.zero_y : (Vec.zero).y = 0 := rfl

lemma Vec.mag_nonneg (v : Vec) : 0 ≤ v.mag := Real.sqrt_nonneg _

@[simp] lemma Vec.mag_zero : (Vec.zero).mag = 0 := by
  simp [Vec.mag, Vec.zero]

lemma Vec.add_zero (v : Vec) : v.add Vec.zero = v := by
  ext <;> simp

lemma Vec.zero_add (v : Vec) : Vec.zero.add v = v := by
  ext <;> simp

lemma Vec.zero_div (n : ℝ) : Vec.zero.div n = Vec.zero := by
  ext <;> simp [Vec.div]

lemma Vec.mag_mult (v : Vec) (n : ℝ) : (v.mult n).mag = |n| * v.mag := by
  unfold Vec.mag Vec.mult
  rw [show (v.x * n) ^ 2 + (v.y * n) ^ 2 = n ^ 2 * (v.x ^ 2 + v.y ^ 2) by ring]
  rw [Real.sqrt_mul (sq_nonneg n), Real.sqrt_sq_eq_abs]

lemma Vec.mag_sq (v : Vec) : v.mag ^ 2 = v.x ^ 2 + v.y ^ 2 := by
  unfold Vec.mag
  exact Real.sq_sqrt (by positivity)

lemma Vec.mag_normalize (v : Vec) (h : v.mag ≠ 0) : (v.normalize).mag = 1 := by
  unfold Vec.normalize
  rw [if_neg h]
  show Real.sqrt ((v.x / v.mag) ^ 2 + (v.y / v.mag) ^ 2) = 1
  rw [div_pow, div_pow, div_add_div_same, ← Vec.mag_sq v,
    div_self (pow_ne_zero 2 h), Real.sqrt_one]

lemma Vec.mag_limit_le (v : Vec) (high : ℝ) (h : 0 ≤ high) : (v.limit high).mag ≤ high := by
  unfold Vec.limit
  split
  · rename_i hgt
    have hne : v.mag ≠ 0 := by
      intro h0
      rw [h0] at hgt
      exact absurd hgt (not_lt.mpr h)
    rw [Vec.mag_mult, Vec.mag_normalize v hne, mul_one, abs_of_nonneg h]
  · rename_i hle
    exact le_of_not_lt hle

section AccumulatorLemmas

@[simp] lemma Agent.withAcc_acceleration (a : Agent) (c : Vec) :
    (a.withAcc c).acceleration = c := rfl

@[simp] lemma Agent.withAcc_withAcc (a : Agent) (c d : Vec) :
    (a.withAcc c).withAcc d = a.withAcc d := rfl

@[simp] lemma Agent.withAcc_self (a : Agent) : a.withAcc a.acceleration = a := rfl

@[simp] lemma Agent.withAcc_mass (a : Agent) (c : Vec) : (a.withAcc c).mass = a.mass := rfl

lemma Agent.applyForce_withAcc (a : Agent) (c : Vec) (f : Vec) :
    (a.withAcc c).applyForce f = a.withAcc (c.add (f.div a.mass)) := rfl

lemma condList_nil {α : Type} (cond : α → Prop) (g : α → Vec) :
    condList cond g [] = [] := rfl

lemma condList_cons {α : Type} (cond : α → Prop) (g : α → Vec) (x : α) (l : List α) :
    condList cond g (x :: l) =
      if cond x then g x :: condList cond g l else condList cond g l := rfl

@[simp] lemma sumVecs_nil : sumVecs [] = Vec.zero := rfl

@[simp] lemma sumVecs_cons (v : Vec) (l : List Vec) :
    sumVecs (v :: l) = v.add (sumVecs l) := rfl

lemma sumVecs_append (l₁ l₂ : List Vec) :
    sumVecs (l₁ ++ l₂) = (sumVecs l₁).add (sumVecs l₂) := by
  induction l₁ with
  | nil => simp [Vec.zero_add]
  | cons v l ih =>
    simp only [List.cons_append, sumVecs_cons, ih]
    ext <;> simp <;> ring

lemma Vec.add_div_add (c f s : Vec) (m : ℝ) :
    (c.add (f.div m)).add (s.div m) = c.add ((f.add s).div m) := by
  ext <;> simp [add_div] <;> ring

/-- Accumulating the forces of a guarded `applyForce` loop: the loop over
`l` starting from `a.withAcc c` adds `(sum of fired contributions) / mass`
to the accumulator and changes nothing else.  The guard and the force may
read the running agent, provided they ignore its accumulator. -/
lemma foldl_applyForce_spec (a : Agent) {α : Type} (cond : Agent → α → Prop)
    (g : Agent → α → Vec)
    (inst : (b : Agent) → (x : α) → Decidable (cond b x))
    (hcond : ∀ (c : Vec) (x : α), cond (a.withAcc c) x ↔ cond a x)
    (hg : ∀ (c : Vec) (x : α), g (a.withAcc c) x = g a x)
    (l : List α) :
    ∀ c : Vec,
      List.foldl (fun b x => @ite _ (cond b x) (inst b x) (b.applyForce (g b x)) b)
          (a.withAcc c) l
        = a.withAcc (c.add ((sumVecs (condList (cond a) (g a) l)).div a.mass)) := by
  induction l with
  | nil =>
    intro c
    simp only [List.foldl_nil, condList_nil, sumVecs_nil, Vec.zero_div, Vec.add_zero]
  | cons x xs ih =>
    intro c
    rw [List.foldl_cons, condList_cons]
    by_cases hx : cond a x
    · rw [if_pos ((hcond c x).mpr hx), if_pos hx]
      have hstep : (a.withAcc c).applyForce (g (a.withAcc c) x)
          = a.withAcc (c.add ((g a x).div a.mass)) := by
        rw [hg]; rfl
      rw [hstep, ih, sumVecs_cons, Vec.add_div_add]
    · rw [if_neg (fun hb => hx ((hcond c x).mp hb)), if_neg hx, ih]

@[simp] lemma Agent.withAcc_className (a : Agent) (c : Vec) :
    (a.withAcc c).className = a.className := rfl

@[simp] lemma Agent.withAcc_id (a : Agent) (c : Vec) : (a.withAcc c).id = a.id := rfl

@[simp] lemma Agent.withAcc_location (a : Agent) (c : Vec) :
    (a.withAcc c).location = a.location := rfl

@[simp] lemma Agent.withAcc_velocity (a : Agent) (c : Vec) :
    (a.withAcc c).velocity = a.velocity := rfl

@[simp] lemma Agent.withAcc_maxSpeed (a : Agent) (c : Vec) :
    (a.withAcc c).maxSpeed = a.maxSpeed := rfl

@[simp] lemma Agent.withAcc_maxSteeringForce (a : Agent) (c : Vec) :
    (a.withAcc c).maxSteeringForce = a.maxSteeringForce := rfl

@[simp] lemma Agent.withAcc_motorSpeed (a : Agent) (c : Vec) :
    (a.withAcc c).motorSpeed = a.motorSpeed := rfl

@[simp] lemma Agent.withAcc_width (a : Agent) (c : Vec) :
    (a.withAcc c).width = a.width := rfl

@[simp] lemma Agent.withAcc_flocking (a : Agent) (c : Vec) :
    (a.withAcc c).flocking = a.flocking := rfl

@[simp] lemma Agent.withAcc_followMouse (a : Agent) (c : Vec) :
    (a.withAcc c).followMouse = a.followMouse := rfl

@[simp] lemma Agent.withAcc_seekTarget (a : Agent) (c : Vec) :
    (a.withAcc c).seekTarget = a.seekTarget := rfl

@[simp] lemma Agent.withAcc_flowField (a : Agent) (c : Vec) :
    (a.withAcc c).flowField = a.flowField := rfl

@[simp] lemma Agent.withAcc_sensors (a : Agent) (c : Vec) :
    (a.withAcc c).sensors = a.sensors := rfl

@[simp] lemma Agent.withAcc_separateStrength (a : Agent) (c : Vec) :
    (a.withAcc c).separateStrength = a.separateStrength := rfl

@[simp] lemma Agent.withAcc_alignStrength (a : Agent) (c : Vec) :
    (a.withAcc c).alignStrength = a.alignStrength := rfl

@[simp] lemma Agent.withAcc_cohesionStrength (a : Agent) (c : Vec) :
    (a.withAcc c).cohesionStrength = a.cohesionStrength := rfl

@[simp] lemma Agent.withAcc_seek (a : Agent) (c : Vec) (t : Vec) :
    (a.withAcc c).seek t = a.seek t := rfl

@[simp] lemma Agent.withAcc_follow (a : Agent) (c : Vec) (t : Vec) :
    (a.withAcc c).follow t = a.follow t := rfl

@[simp] lemma Agent.withAcc_motorDir (a : Agent) (c : Vec) :
    (a.withAcc c).motorDir = a.motorDir := rfl

@[simp] lemma Agent.withAcc_separate (a : Agent) (c : Vec) (es : List Element) :
    (a.withAcc c).separate es = a.separate es := rfl

@[simp] lemma Agent.withAcc_align (a : Agent) (c : Vec) (es : List Element) :
    (a.withAcc c).align es = a.align es := rfl

@[simp] lemma Agent.withAcc_cohesion (a : Agent) (c : Vec) (es : List Element) :
    (a.withAcc c).cohesion es = a.cohesion es := rfl

@[simp] lemma Agent.withAcc_flowContrib (a : Agent) (c : Vec) :
    (a.withAcc c).flowContrib = a.flowContrib := rfl

section PhaseLemmas

lemma Agent.liquidPhase_spec (env : Env) (a : Agent) (c : Vec) :
    Agent.liquidPhase env (a.withAcc c)
      = a.withAcc (c.add ((sumVecs (condList
          (fun liq => a.id ≠ liq.id ∧ isInside a liq) a.drag env.liquids)).div a.mass)) := by
  unfold Agent.liquidPhase
  apply foldl_applyForce_spec a
  · intro c x; exact Iff.rfl
  · intro c x; rfl

lemma Agent.attractorPhase_spec (env : Env) (a : Agent) (c : Vec) :
    Agent.attractorPhase env (a.withAcc c)
      = a.withAcc (c.add ((sumVecs (condList
          (fun s => a.id ≠ s.id) a.attract env.attractors)).div a.mass)) := by
  unfold Agent.attractorPhase
  apply foldl_applyForce_spec a
  · intro c x; exact Iff.rfl
  · intro c x; rfl

lemma Agent.repellerPhase_spec (env : Env) (a : Agent) (c : Vec) :
    Agent.repellerPhase env (a.withAcc c)
      = a.withAcc (c.add ((sumVecs (condList
          (fun s => a.id ≠ s.id) a.attract env.repellers)).div a.mass)) := by
  unfold Agent.repellerPhase
  apply foldl_applyForce_spec a
  · intro c x; exact Iff.rfl
  · intro c x; rfl

lemma Agent.sensorPhase_spec (a : Agent) (c : Vec) :
    Agent.sensorPhase (a.withAcc c)
      = a.withAcc (c.add ((sumVecs (condList
          (fun s => s.activated = true) (fun s => s.activationForce) a.sensors)).div a.mass)) := by
  unfold Agent.sensorPhase
  apply foldl_applyForce_spec a
  · intro c x; exact Iff.rfl
  · intro c x; rfl

lemma Agent.motorPhase_spec (a : Agent) (c : Vec) :
    Agent.motorPhase (a.withAcc c)
      = a.withAcc (c.add ((sumVecs
          (if a.sensors.any (fun s => s.activated) = false ∧ a.motorSpeed ≠ 0 then
            [a.motorDir] else [])).div a.mass)) := by
  unfold Agent.motorPhase
  simp only [Agent.withAcc_sensors, Agent.withAcc_motorSpeed, Agent.withAcc_motorDir]
  by_cases h : a.sensors.any (fun s => s.activated) = false ∧ a.motorSpeed ≠ 0
  · rw [if_pos h, if_pos h, Agent.applyForce_withAcc, sumVecs_cons, sumVecs_nil,
      Vec.add_zero]
  · rw [if_neg h, if_neg h, sumVecs_nil, Vec.zero_div, Vec.add_zero]

lemma Agent.mousePhase_spec (env : Env) (a : Agent) (c : Vec) :
    Agent.mousePhase env (a.withAcc c)
      = a.withAcc (c.add ((sumVecs
          (if a.followMouse = true ∧ env.touch = false then [a.seek env.mouse]
            else [])).div a.mass)) := by
  unfold Agent.mousePhase
  simp only [Agent.withAcc_followMouse, Agent.withAcc_seek]
  by_cases h : a.followMouse = true ∧ env.touch = false
  · rw [if_pos h, if_pos h, Agent.applyForce_withAcc, sumVecs_cons, sumVecs_nil,
      Vec.add_zero]
  · rw [if_neg h, if_neg h, sumVecs_nil, Vec.zero_div, Vec.add_zero]

lemma Agent.seekPhase_spec (a : Agent) (c : Vec) :
    Agent.seekPhase (a.withAcc c)
      = a.withAcc (c.add ((sumVecs
          (match a.seekTarget with | some t => [a.seek t] | none => [])).div a.mass)) := by
  unfold Agent.seekPhase
  simp only [Agent.withAcc_seekTarget, Agent.withAcc_seek]
  cases a.seekTarget with
  | none => simp [Vec.zero_div, Vec.add_zero]
  | some t => simp [Agent.applyForce_withAcc, Vec.add_zero]

lemma Agent.flowPhase_spec (a : Agent) (c : Vec) :
    Agent.flowPhase (a.withAcc c)
      = a.withAcc (c.add ((sumVecs a.flowContrib).div a.mass)) := by
  unfold Agent.flowPhase Agent.flowContrib
  simp only [Agent.withAcc_flowField, Agent.withAcc_location, Agent.withAcc_follow]
  cases hff : a.flowField with
  | none => simp [Vec.zero_div, Vec.add_zero]
  | some ff =>
    cases hcol : ff.field ⌊a.location.x / ff.resolution⌋ with
    | none => simp [hcol, Vec.zero_div, Vec.add_zero]
    | some colFun =>
      cases hrow : colFun ⌊a.location.y / ff.resolution⌋ with
      | none => simp [hcol, hrow, Agent.applyForce_withAcc, Vec.add_zero]
      | some loc => simp [hcol, hrow, Agent.applyForce_withAcc, Vec.add_zero]

lemma Agent.flockPhase_spec (env : Env) (a : Agent) (c : Vec) :
    Agent.flockPhase env (a.withAcc c)
      = a.withAcc (c.add ((sumVecs
          (if a.flocking = true then
            [(a.separate env.agents).mult a.separateStrength,
             (a.align env.agents).mult a.alignStrength,
             (a.cohesion env.agents).mult a.cohesionStrength]
           else [])).div a.mass)) := by
  simp only [Agent.flockPhase, Agent.flock, Agent.withAcc_flocking]
  by_cases h : a.flocking = true
  · rw [if_pos h, if_pos h]
    simp only [Agent.applyForce_withAcc, Agent.withAcc_separate, Agent.withAcc_align,
      Agent.withAcc_cohesion, Agent.withAcc_separateStrength,
      Agent.withAcc_alignStrength, Agent.withAcc_cohesionStrength, sumVecs_cons,
      sumVecs_nil]
    congr 1
    ext <;> simp [add_div] <;> ring
  · rw [if_neg h, if_neg h, sumVecs_nil, Vec.zero_div, Vec.add_zero]

/-- `applyForces` leaves every field except the acceleration accumulator
unchanged and adds to the accumulator exactly the mass-scaled sum of the
contributions in `forceContributions`, in source order. -/
lemma Agent.applyForces_spec (a : Agent) (env : Env) :
    a.applyForces env
      = a.withAcc (a.acceleration.add ((sumVecs (a.forceContributions env)).div a.mass)) := by
  rw [show a.applyForces env
      = Agent.flockPhase env (Agent.flowPhase (Agent.seekPhase (Agent.mousePhase env
          (Agent.motorPhase (Agent.sensorPhase (Agent.repellerPhase env
            (Agent.attractorPhase env (Agent.liquidPhase env
              (a.withAcc a.acceleration))))))))) from rfl]
  rw [Agent.liquidPhase_spec, Agent.attractorPhase_spec, Agent.repellerPhase_spec,
    Agent.sensorPhase_spec, Agent.motorPhase_spec, Agent.mousePhase_spec,
    Agent.seekPhase_spec, Agent.flowPhase_spec, Agent.flockPhase_spec]
  unfold Agent.forceContributions
  congr 1
  simp only [sumVecs_append]
  ext <;> simp [add_div] <;> ring

end PhaseLemmas

end AccumulatorLemmas

section SteeringBounds

lemma Agent.mag_seek_le (a : Agent) (t : Vec) (h : 0 ≤ a.maxSteeringForce) :
    (a.seek t).mag ≤ a.maxSteeringForce :=
  Vec.mag_limit_le _ _ h

lemma Agent.mag_follow_le (a : Agent) (t : Vec) (h : 0 ≤ a.maxSteeringForce) :
    (a.follow t).mag ≤ a.maxSteeringForce :=
  Vec.mag_limit_le _ _ h

lemma Agent.mag_separate_le (a : Agent) (es : List Element)
    (h : 0 ≤ a.maxSteeringForce) : (a.separate es).mag ≤ a.maxSteeringForce := by
  unfold Agent.separate
  dsimp only
  split
  · exact Vec.mag_limit_le _ _ h
  · simpa using h

lemma Agent.mag_align_le (a : Agent) (es : List Element)
    (h : 0 ≤ a.maxSteeringForce) : (a.align es).mag ≤ a.maxSteeringForce := by
  unfold Agent.align
  dsimp only
  split
  · exact Vec.mag_limit_le _ _ h
  · simpa using h

lemma Agent.mag_cohesion_le (a : Agent) (es : List Element)
    (h : 0 ≤ a.maxSteeringForce) : (a.cohesion es).mag ≤ a.maxSteeringForce := by
  unfold Agent.cohesion
  dsimp only
  split
  · exact Vec.mag_limit_le _ _ h
  · simpa using h

lemma Vec.distance_self (v : Vec) : v.distance v = 0 := by
  simp [Vec.distance, Vec.sub, Vec.mag]

end SteeringBounds

/-- Claim C3: for every agent with nonnegative `maxSteeringForce` and
arbitrary target and neighbor configurations, the steering vectors returned
by `_seek`, `follow`, `separate`, `align` and `cohesion` all have magnitude
at most `maxSteeringForce`. -/
theorem steering_clamped (a : Agent) (t : Vec) (es : List Element)
    (h : 0 ≤ a.maxSteeringForce) :
    (a.seek t).mag ≤ a.maxSteeringForce ∧
    (a.follow t).mag ≤ a.maxSteeringForce ∧
    (a.separate es).mag ≤ a.maxSteeringForce ∧
    (a.align es).mag ≤ a.maxSteeringForce ∧
    (a.cohesion es).mag ≤ a.maxSteeringForce :=
  ⟨Agent.mag_seek_le a t h, Agent.mag_follow_le a t h, Agent.mag_separate_le a es h,
    Agent.mag_align_le a es h, Agent.mag_cohesion_le a es h⟩

/-- Concrete instance of `steering_clamped` at `baseAgent` (with
`maxSteeringForce = 10 ≥ 0`), a target `(3,4)` and one neighbor. -/
theorem steering_clamped_witness :
    (baseAgent.seek ⟨3, 4⟩).mag ≤ baseAgent.maxSteeringForce ∧
    (baseAgent.follow ⟨3, 4⟩).mag ≤ baseAgent.maxSteeringForce ∧
    (baseAgent.separate [c4Other]).mag ≤ baseAgent.maxSteeringForce ∧
    (baseAgent.align [c4Other]).mag ≤ baseAgent.maxSteeringForce ∧
    (baseAgent.cohesion [c4Other]).mag ≤ baseAgent.maxSteeringForce :=
  steering_clamped baseAgent ⟨3, 4⟩ [c4Other] (by norm_num [baseAgent])

/-- Claim C4: for two same-kind agents at exactly the same location with
positive desired separation, the zero-distance neighbor is excluded from the
accumulation by the `d > 0` guard, so `separate` divides by nothing and
returns the (finite) zero vector. -/
theorem separate_zero_distance (a : Agent) (e : Element)
    (hclass : a.className = e.className) (hid : a.id ≠ e.id)
    (hloc : e.location = a.location) (_hsep : 0 < a.desiredSeparation) :
    a.separate [e] = Vec.zero := by
  have hd : a.location.distance e.location = 0 := by
    rw [hloc, Vec.distance_self]
  unfold Agent.separate
  simp [hclass, hid, hd]

/-- Concrete instance of `separate_zero_distance`: `baseAgent` and `c4Other`
share the location `(0,0)` and `baseAgent.desiredSeparation = 20 > 0`. -/
theorem separate_zero_distance_witness : baseAgent.separate [c4Other] = Vec.zero :=
  separate_zero_distance baseAgent c4Other rfl (by norm_num [baseAgent, c4Other])
    rfl (by norm_num [baseAgent])

/-- Claim C5: `separate`, `align` and `cohesion` return the zero vector on
an empty elements list and on the list holding only the agent itself. -/
theorem flocking_zero_on_self_or_empty (a : Agent) :
    a.separate [] = Vec.zero ∧ a.align [] = Vec.zero ∧ a.cohesion [] = Vec.zero ∧
    a.separate [a.toElement] = Vec.zero ∧ a.align [a.toElement] = Vec.zero ∧
    a.cohesion [a.toElement] = Vec.zero := by
  have hd : a.location.distance (a.toElement).location = 0 := Vec.distance_self _
  refine ⟨?_, ?_, ?_, ?_, ?_, ?_⟩
  · simp [Agent.separate]
  · simp [Agent.align]
  · simp [Agent.cohesion]
  · simp [Agent.separate, Agent.toElement]
  · simp [Agent.align, hd]
  · simp [Agent.cohesion, hd]

/-- Claim C6: when no sensor is activated and `motorSpeed` is nonzero, the
motor block of `applyForces` fires, and the force it hands to `applyForce`
is the normalized current velocity scaled by `-motorSpeed` when the speed
exceeds `motorSpeed` and by `+motorSpeed` otherwise; that force is among the
frame's contributions. -/
theorem motor_maintenance (env : Env) (a : Agent)
    (hs : a.sensors.any (fun s => s.activated) = false) (hm : a.motorSpeed ≠ 0) :
    Agent.motorPhase a = a.applyForce a.motorDir ∧
    a.motorDir = (if a.velocity.mag > a.motorSpeed then
        (a.velocity.normalize).mult (-a.motorSpeed)
      else (a.velocity.normalize).mult a.motorSpeed) ∧
    a.motorDir ∈ a.forceContributions env := by
  refine ⟨?_, rfl, ?_⟩
  · unfold Agent.motorPhase
    rw [if_pos ⟨hs, hm⟩]
  · unfold Agent.forceContributions
    simp [hs, hm]

/-- Concrete instance of `motor_maintenance`: `c6Agent` has no sensors and
`motorSpeed = 2 ≠ 0`. -/
theorem motor_maintenance_witness :
    Agent.motorPhase c6Agent = c6Agent.applyForce c6Agent.motorDir ∧
    c6Agent.motorDir = (if c6Agent.velocity.mag > c6Agent.motorSpeed then
        (c6Agent.velocity.normalize).mult (-c6Agent.motorSpeed)
      else (c6Agent.velocity.normalize).mult c6Agent.motorSpeed) ∧
    c6Agent.motorDir ∈ c6Agent.forceContributions baseEnv :=
  motor_maintenance baseEnv c6Agent (by simp [c6Agent, baseAgent])
    (by norm_num [c6Agent, baseAgent])

/-- Claim C7: `applyForces` evaluates the behavior blocks in the fixed
source order (liquid drag excluding self, attractors, repellers, sensors in
declared order, motor maintenance, pointer following, explicit seek, flow
field, flocking); a behavior whose condition is false or whose list is empty
contributes the empty block in `forceContributions`, and the fired
contributions add strictly: the accumulator `applyForces` returns is the
initial acceleration plus the mass-scaled sum of the contributions, with no
other field changed. -/
theorem applyForces_order_and_additivity (a : Agent) (env : Env) :
    a.applyForces env
      = a.withAcc (a.acceleration.add ((sumVecs (a.forceContributions env)).div a.mass)) :=
  Agent.applyForces_spec a env

/-- Claim C8: `init` on an options object omitting the corresponding fields
sets `followMouse = false`, `maxSteeringForce = 10`,
`desiredSeparation = 2 * width`, `separateStrength = 0.3`,
`alignStrength = 0.2` and `cohesionStrength = 0.1`. -/
theorem init_defaults (w : ℝ) (opts : Options)
    (h1 : opts.followMouse = none) (h2 : opts.maxSteeringForce = none)
    (h3 : opts.desiredSeparation = none) (h4 : opts.separateStrength = none)
    (h5 : opts.alignStrength = none) (h6 : opts.cohesionStrength = none) :
    (Agent.init w opts).followMouse = false ∧
    (Agent.init w opts).maxSteeringForce = 10 ∧
    (Agent.init w opts).desiredSeparation = w * 2 ∧
    (Agent.init w opts).separateStrength = 0.3 ∧
    (Agent.init w opts).alignStrength = 0.2 ∧
    (Agent.init w opts).cohesionStrength = 0.1 := by
  unfold Agent.init
  rw [h1, h2, h3, h4, h5, h6]
  exact ⟨rfl, rfl, rfl, rfl, rfl, rfl⟩

/-- Concrete instance of `init_defaults` on the all-omitted options bag. -/
theorem init_defaults_witness :
    (Agent.init 7 emptyOptions).followMouse = false ∧
    (Agent.init 7 emptyOptions).maxSteeringForce = 10 ∧
    (Agent.init 7 emptyOptions).desiredSeparation = 7 * 2 ∧
    (Agent.init 7 emptyOptions).separateStrength = 0.3 ∧
    (Agent.init 7 emptyOptions).alignStrength = 0.2 ∧
    (Agent.init 7 emptyOptions).cohesionStrength = 0.1 :=
  init_defaults 7 emptyOptions rfl rfl rfl rfl rfl rfl

/-- Claim C9: `getVelocity` with no (falsy) `type` argument returns a clone
of the agent's location, which differs from the velocity whenever the two
vectors differ, while `getVelocity('x')` and `getVelocity('y')` do return
the velocity components. -/
theorem getVelocity_no_arg_returns_location (a : Agent)
    (h : a.velocity ≠ a.location) :
    a.getVelocity none = GetResult.vec a.location ∧
    a.getVelocity none ≠ GetResult.vec a.velocity ∧
    a.getVelocity (some "x") = GetResult.num a.velocity.x ∧
    a.getVelocity (some "y") = GetResult.num a.velocity.y := by
  refine ⟨rfl, ?_, rfl, rfl⟩
  intro hc
  rw [show a.getVelocity none = GetResult.vec a.location from rfl] at hc
  simp only [GetResult.vec.injEq] at hc
  exact h hc.symm

/-- Concrete instance of `getVelocity_no_arg_returns_location`: `c9Agent`
has velocity `(2,3)` and location `(0,0)`. -/
theorem getVelocity_no_arg_returns_location_witness :
    c9Agent.getVelocity none = GetResult.vec c9Agent.location ∧
    c9Agent.getVelocity none ≠ GetResult.vec c9Agent.velocity ∧
    c9Agent.getVelocity (some "x") = GetResult.num c9Agent.velocity.x ∧
    c9Agent.getVelocity (some "y") = GetResult.num c9Agent.velocity.y :=
  getVelocity_no_arg_returns_location c9Agent
    (by simp only [c9Agent, baseAgent]; intro hc; simp only [Vec.mk.injEq] at hc; norm_num at hc)

/-- Claim C10: after `init`, `borderRadius` is exactly 100 or exactly 0,
and it is 100 precisely when the requested `borderRadius` is truthy or the
sensors list is non-empty, regardless of the number requested. -/
theorem init_borderRadius_binary (w : ℝ) (opts : Options) :
    ((Agent.init w opts).borderRadius = 100 ∨ (Agent.init w opts).borderRadius = 0) ∧
    ((Agent.init w opts).borderRadius = 100 ↔
      (truthyNum opts.borderRadius ∨ (opts.sensors.getD []).length ≠ 0)) := by
  unfold Agent.init
  dsimp only
  by_cases h : truthyNum opts.borderRadius ∨ (opts.sensors.getD []).length ≠ 0
  · rw [if_pos h]
    exact ⟨Or.inl rfl, iff_of_true rfl h⟩
  · rw [if_neg h]
    exact ⟨Or.inr rfl, iff_of_false (by norm_num) h⟩

/-- Claim C1 counterexample: for `c1Agent` the occupying cell lies in the
populated column of its flow field but has no sampled vector; the flow-field
block of `applyForces` then applies `follow` on the agent's own location,
and that contribution evaluates to `(1,0)`, not the zero vector. -/
theorem flow_fallback_not_zero_cex :
    c1Agent.flowContrib = [c1Agent.follow c1Agent.location] ∧
    c1Agent.follow c1Agent.location ≠ Vec.zero := by
  constructor
  · unfold Agent.flowContrib
    norm_num [c1Agent, c1Field, baseAgent, Int.floor_one]
  · have hval : c1Agent.follow c1Agent.location = ⟨1, 0⟩ := by
      unfold Agent.follow
      norm_num [c1Agent, baseAgent, Vec.mult, Vec.sub, Vec.limit, Vec.mag,
        Real.sqrt_one]
    rw [hval]
    intro hc
    simp only [Vec.zero, Vec.mk.injEq] at hc
    exact one_ne_zero hc.1

/-- Claim C1 (amended): when the agent's occupying grid cell lies in a
populated column but has no sampled direction vector, the flow-field block
of `applyForces` falls back to following the agent's own current location:
the single applied steering contribution is `follow(location)`, i.e.
`limit(location * maxSpeed - velocity, maxSteeringForce)`, which is not in
general the zero vector. -/
theorem flow_fallback_follows_own_location (a : Agent) (ff : FlowField)
    (colFun : ℤ → Option Vec) (hff : a.flowField = some ff)
    (hcol : ff.field ⌊a.location.x / ff.resolution⌋ = some colFun)
    (hrow : colFun ⌊a.location.y / ff.resolution⌋ = none) :
    a.flowContrib = [a.follow a.location] ∧
    a.follow a.location
      = ((a.location.mult a.maxSpeed).sub a.velocity).limit a.maxSteeringForce := by
  refine ⟨?_, rfl⟩
  unfold Agent.flowContrib
  rw [hff]
  simp only [hcol, hrow]

/-- Concrete instance of `flow_fallback_follows_own_location` at
`c1Agent` in its flow field `c1Field`. -/
theorem flow_fallback_follows_own_location_witness :
    c1Agent.flowContrib = [c1Agent.follow c1Agent.location] ∧
    c1Agent.follow c1Agent.location
      = ((c1Agent.location.mult c1Agent.maxSpeed).sub c1Agent.velocity).limit
          c1Agent.maxSteeringForce :=
  flow_fallback_follows_own_location c1Agent c1Field (fun _ => none) rfl
    (by norm_num [c1Agent, c1Field, baseAgent, Int.floor_one]) rfl

/-- Claim C2 counterexample: `c2Agent` has the nonnegative strength weight
`separateStrength = 2` and `maxSteeringForce = 1`; the separation
contribution that `flock` passes to `applyForce` is `(-2, 0)`, of magnitude
`2 > maxSteeringForce`. -/
theorem flock_contribution_exceeds_clamp_cex :
    (c2Agent.separate [c2Other]).mult c2Agent.separateStrength
        ∈ c2Agent.forceContributions c2Env ∧
    Vec.mag ((c2Agent.separate [c2Other]).mult c2Agent.separateStrength)
      > c2Agent.maxSteeringForce := by
  have h4 : Real.sqrt 4 = 2 := by
    rw [show (4 : ℝ) = 2 ^ 2 by norm_num, Real.sqrt_sq two_pos.le]
  have hsep : c2Agent.separate [c2Other] = ⟨-1, 0⟩ := by
    unfold Agent.separate
    norm_num [c2Agent, c2Other, baseAgent, Vec.distance, Vec.sub, Vec.mag,
      Vec.normalize, Vec.div, Vec.add, Vec.mult, Vec.limit, Vec.zero,
      Real.sqrt_one]
  constructor
  · unfold Agent.forceContributions
    simp [c2Agent, c2Env, c2Other, baseAgent, Agent.flowContrib, condList_nil]
  · rw [hsep]
    norm_num [c2Agent, baseAgent, Vec.mult, Vec.mag, h4]

/-- Claim C2 (amended): each of the three flocking contributions that
`flock` passes to `applyForce` has magnitude at most its strength weight
times `maxSteeringForce` (so at most `maxSteeringForce` whenever the weight
is at most 1, but not for arbitrary nonnegative weights). -/
theorem flock_contributions_bounded (a : Agent) (es : List Element)
    (h : 0 ≤ a.maxSteeringForce) (hs : 0 ≤ a.separateStrength)
    (ha : 0 ≤ a.alignStrength) (hc : 0 ≤ a.cohesionStrength) :
    Vec.mag ((a.separate es).mult a.separateStrength)
        ≤ a.separateStrength * a.maxSteeringForce ∧
    Vec.mag ((a.align es).mult a.alignStrength)
        ≤ a.alignStrength * a.maxSteeringForce ∧
    Vec.mag ((a.cohesion es).mult a.cohesionStrength)
        ≤ a.cohesionStrength * a.maxSteeringForce := by
  refine ⟨?_, ?_, ?_⟩
  · rw [Vec.mag_mult, abs_of_nonneg hs]
    exact mul_le_mul_of_nonneg_left (Agent.mag_separate_le a es h) hs
  · rw [Vec.mag_mult, abs_of_nonneg ha]
    exact mul_le_mul_of_nonneg_left (Agent.mag_align_le a es h) ha
  · rw [Vec.mag_mult, abs_of_nonneg hc]
    exact mul_le_mul_of_nonneg_left (Agent.mag_cohesion_le a es h) hc

/-- Concrete instance of `flock_contributions_bounded` at `c2Agent` with its
one neighbor. -/
theorem flock_contributions_bounded_witness :
    Vec.mag ((c2Agent.separate [c2Other]).mult c2Agent.separateStrength)
        ≤ c2Agent.separateStrength * c2Agent.maxSteeringForce ∧
    Vec.mag ((c2Agent.align [c2Other]).mult c2Agent.alignStrength)
        ≤ c2Agent.alignStrength * c2Agent.maxSteeringForce ∧
    Vec.mag ((c2Agent.cohesion [c2Other]).mult c2Agent.cohesionStrength)
        ≤ c2Agent.cohesionStrength * c2Agent.maxSteeringForce :=
  flock_contributions_bounded c2Agent [c2Other] (by norm_num [c2Agent, baseAgent])
    (by norm_num [c2Agent, baseAgent]) (by norm_num [c2Agent, baseAgent])
    (by norm_num [c2Agent, baseAgent])

end Flora
